import Mathlib

/-!
Shallow embedding of the `HTTPStatus` module (`src/HTTPStatus.js`).

The module exports a single object literal overlaying two key spaces:
symbolic constant names mapping to numeric codes (`CONTINUE: 100`, ...) and
numeric codes mapping to reason-text strings (`100: 'Continue'`, ...).
We embed the two key spaces as two association lists in source order.
JavaScript property access on the literal is embedded as `List.find?`;
since the literal has no duplicate keys (proved below), first-match lookup
agrees with the object semantics.
-/

/-- The symbolic-name entries of `module.exports` in `src/HTTPStatus.js`
(`CONTINUE: 100` through `NETWORK_CONNECT_TIMEOUT_ERROR: 599`), in source
order. -/
def symbolicConstants : List (String × Nat) := [
  ("CONTINUE", 100),
  ("SWITCHING_PROTOCOLS", 101),
  ("PROCESSING", 102),
  ("OK", 200),
  ("CREATED", 201),
  ("ACCEPTED", 202),
  ("NON_AUTHORITATIVE_INFORMATION", 203),
  ("NO_CONTENT", 204),
  ("RESET_CONTENT", 205),
  ("PARTIAL_CONTENT", 206),
  ("MULTI_STATUS", 207),
  ("ALREADY_REPORTED", 208),
  ("IM_USED", 209),
  ("MULTIPLE_CHOICES", 300),
  ("MOVED_PERMANENTLY", 301),
  ("FOUND", 302),
  ("SEE_OTHER", 303),
  ("NOT_MODIFIED", 304),
  ("USE_PROXY", 305),
  ("SWITCH_PROXY", 306),
  ("TEMPORARY_REDIRECT", 307),
  ("PERMANENT_REDIRECT", 308),
  ("BAD_REQUEST", 400),
  ("UNAUTHORIZED", 401),
  ("PAYMENT_REQUIRED", 402),
  ("FORBIDDEN", 403),
  ("NOT_FOUND", 404),
  ("METHOD_NOT_ALLOWED", 405),
  ("NOT_ACCEPTABLE", 406),
  ("PROXY_AUTHENTICATION_REQUIRED", 407),
  ("REQUEST_TIMEOUT", 408),
  ("CONFLICT", 409),
  ("GONE", 410),
  ("LENGTH_REQUIRED", 411),
  ("PRECONDITION_FAILED", 412),
  ("REQUEST_ENTITY_TOO_LARGE", 413),
  ("REQUEST_URI_TOO_LONG", 414),
  ("UNSUPPORTED_MEDIA_TYPE", 415),
  ("REQUESTED_RANGE_NOT_SATISFIABLE", 416),
  ("EXPECTATION_FAILED", 417),
  ("I_AM_A_TEAPOT", 418),
  ("AUTHENTICATION_TIMEOUT", 419),
  ("METHOD_FAILURE", 420),
  ("ENHANCE_YOUR_CALM", 420),
  ("UNPROCESSABLE_ENTITY", 422),
  ("LOCKED", 423),
  ("FAILED_DEPENDENCY", 424),
  ("UPGRADE_REQUIRED", 426),
  ("PRECONDITION_REQUIRED", 428),
  ("TOO_MANY_REQUESTS", 429),
  ("REQUEST_HEADER_FIELDS_TOO_LARGE", 431),
  ("LOGIN_TIMEOUT", 440),
  ("NO_RESPONSE", 444),
  ("RETRY_WITH", 449),
  ("BLOCKED_BY_WINDOWS_PARENTAL_CONTROLS", 450),
  ("UNAVAILABLE_FOR_LEGAL_REASONS", 451),
  ("REDIRECT", 451),
  ("REQUEST_HEADER_TOO_LARGE", 494),
  ("CERT_ERROR", 495),
  ("NO_CERT", 496),
  ("HTTP_TO_HTTPS", 497),
  ("TOKEN_EXPIRED", 498),
  ("TOKEN_INVALID", 498),
  ("CLIENT_CLOSED_REQUEST", 499),
  ("TOKEN_REQUIRED", 499),
  ("INTERNAL_SERVER_ERROR", 500),
  ("NOT_IMPLEMENTED", 501),
  ("BAD_GATEWAY", 502),
  ("SERVICE_UNAVAILABLE", 503),
  ("GATEWAY_TIMEOUT", 504),
  ("HTTP_VERSION_NOT_SUPPORTED", 505),
  ("VARIANT_ALSO_NEGOTIATES", 506),
  ("INSUFFICIENT_STORAGE", 507),
  ("LOOP_DETECTED", 508),
  ("BANDWIDTH_LIMIT_EXCEEDED", 509),
  ("NOT_EXTENDED", 510),
  ("NETWORK_AUTHENTICATION_REQUIRED", 511),
  ("ORIGIN_ERROR", 520),
  ("WEB_SERVER_IS_DOWN", 521),
  ("CONNECTION_TIMED_OUT", 522),
  ("PROXY_DECLINED_REQUEST", 523),
  ("A_TIMEOUT_OCCURRED", 524),
  ("NETWORK_READ_TIMEOUT_ERROR", 598),
  ("NETWORK_CONNECT_TIMEOUT_ERROR", 599)
]

/-- The status-description entries of `module.exports` in `src/HTTPStatus.js`
(the `100: 'Continue'` through `599: 'Network connect timeout error (Unknown)'`
block), in source order. -/
def statusDescriptions : List (Nat × String) := [
  (100, "Continue"),
  (101, "Switching Protocols"),
  (102, "Processing"),
  (200, "OK"),
  (201, "Created"),
  (202, "Accepted"),
  (203, "Non-Authoritative Information"),
  (204, "No Content"),
  (205, "Reset Content"),
  (206, "Partial Content"),
  (207, "Multi-Status"),
  (208, "Already Reported"),
  (209, "IM Used"),
  (300, "Multiple Choices"),
  (301, "Moved Permanently"),
  (302, "Found"),
  (303, "See Other"),
  (304, "Not Modified"),
  (305, "Use Proxy"),
  (306, "Switch Proxy"),
  (307, "Temporary Redirect"),
  (308, "Permanent Redirect"),
  (400, "Bad Request"),
  (401, "Unauthorized"),
  (402, "Payment Required"),
  (403, "Forbidden"),
  (404, "Not Found"),
  (405, "Method Not Allowed"),
  (406, "Not Acceptable"),
  (407, "Proxy Authentication Required"),
  (408, "Request Timeout"),
  (409, "Conflict"),
  (410, "Gone"),
  (411, "Length Required"),
  (412, "Precondition Failed"),
  (413, "Request Entity Too Large"),
  (414, "Request-URI Too Long"),
  (415, "Unsupported Media Type"),
  (416, "Requested Range Not Satisfiable"),
  (417, "Expectation Failed"),
  (418, "I'm a teapot"),
  (419, "Authentication Timeout"),
  (420, "Method Failure (Spring Framework) / Enhance Your Calm (Twitter)"),
  (422, "Unprocessable Entity"),
  (423, "Locked"),
  (424, "Failed Dependency"),
  (426, "Upgrade Required"),
  (428, "Precondition Required"),
  (429, "Too Many Requests"),
  (431, "Request Header Fields Too Large"),
  (440, "Login Timeout (Microsoft)"),
  (444, "No Response (Nginx)"),
  (449, "Retry With (Microsoft)"),
  (450, "Blocked by Windows Parental Controls (Microsoft)"),
  (451, "Unavailable For Legal Reasons / Redirect (Microsoft)"),
  (494, "Request Header Too Large (Nginx)"),
  (495, "Cert Error (Nginx)"),
  (496, "No Cert (Nginx)"),
  (497, "HTTP to HTTPS (Nginx)"),
  (498, "Token expired/invalid (Esri)"),
  (499, "Client Closed Request (Nginx) / Token required (Esri)"),
  (500, "Internal Server Error"),
  (501, "Not Implemented"),
  (502, "Bad Gateway"),
  (503, "Service Unavailable"),
  (504, "Gateway Timeout"),
  (505, "HTTP Version Not Supported"),
  (506, "Variant Also Negotiates"),
  (507, "Insufficient Storage"),
  (508, "Loop Detected"),
  (509, "Bandwidth Limit Exceeded (Apache bw/limited extension)"),
  (510, "Not Extended"),
  (511, "Network Authentication Required"),
  (520, "Origin Error (CloudFlare)"),
  (521, "Web server is down (CloudFlare)"),
  (522, "Connection timed out (CloudFlare)"),
  (523, "Proxy Declined Request (CloudFlare)"),
  (524, "A timeout occurred (CloudFlare)"),
  (598, "Network read timeout error (Unknown)"),
  (599, "Network connect timeout error (Unknown)")
]

/-- Property access `HTTPStatus[name]` for a symbolic constant name: the code
registered under `name`, or absence (`undefined` in the source, `none` here). -/
def lookupBySymbolicName (name : String) : Option Nat :=
  (symbolicConstants.find? (fun p => p.1 == name)).map Prod.snd

/-- Property access `HTTPStatus[code]` for a numeric code: the reason text
registered under `code`, or absence (`undefined` in the source, `none` here). -/
def lookupByCode (code : Nat) : Option String :=
  (statusDescriptions.find? (fun p => p.1 == code)).map Prod.snd

/-- Decimal value of a string of digits, read left to right. -/
def digitsValue (cs : List Char) : Nat :=
  cs.foldl (fun a c => a * 10 + (c.toNat - 48)) 0

/-- Numeric coercion of a string: a non-empty all-digit string coerces to its
decimal value, any other string is non-numeric. -/
def numericString? (s : String) : Option Nat :=
  let cs := s.toList
  if cs ≠ [] ∧ cs.all (fun c => decide ('0' ≤ c) && decide (c ≤ '9')) then
    some (digitsValue cs)
  else
    none

/-- The argument of `getStatusText` (`{String|Number} code` in the README API
doc): either a number or a string. -/
inductive StatusInput where
  | num : Nat → StatusInput
  | str : String → StatusInput
deriving DecidableEq

/-- Modelled from the spec: the implementation of `getStatusText` is not under
`src/` — only its README API documentation (`{String} HTTPStatus.getStatusText(code)`,
parameter `{String|Number} code`) is. Spec §4.1: given an integer (or a numeric
string), it behaves as `lookupByCode` after numeric coercion; given a
non-numeric string, it first resolves the symbolic name via
`lookupBySymbolicName` to a code and returns that code's reason text; it
signals `NotFound` (`none`) uniformly for any unresolvable input. -/
def getStatusText : StatusInput → Option String
  | .num c => lookupByCode c
  | .str s =>
      match numericString? s with
      | some c => lookupByCode c
      | none => (lookupBySymbolicName s).bind lookupByCode

/-- The documentation table of the README section of `src/HTTPStatus.js`
(`Code | Constant | Text` rows, §6 of the spec condenses the same table), in
document order: `(code, constant, text)` triples. -/
def readmeTable : List (Nat × String × String) := [
  (100, "CONTINUE", "Continue"),
  (101, "SWITCHING_PROTOCOLS", "Switching Protocols"),
  (102, "PROCESSING", "Processing"),
  (200, "OK", "OK"),
  (201, "CREATED", "Created"),
  (202, "ACCEPTED", "Accepted"),
  (203, "NON_AUTHORITATIVE_INFORMATION", "Non-Authoritative Information"),
  (204, "NO_CONTENT", "No Content"),
  (205, "RESET_CONTENT", "Reset Content"),
  (206, "PARTIAL_CONTENT", "Partial Content"),
  (207, "MULTI_STATUS", "Multi-Status"),
  (208, "ALREADY_REPORTED", "Already Reported"),
  (209, "IM_USED", "IM Used"),
  (300, "MULTIPLE_CHOICES", "Multiple Choices"),
  (301, "MOVED_PERMANENTLY", "Moved Permanently"),
  (302, "FOUND", "Found"),
  (303, "SEE_OTHER", "See Other"),
  (304, "NOT_MODIFIED", "Not Modified"),
  (305, "USE_PROXY", "Use Proxy"),
  (306, "SWITCH_PROXY", "Switch Proxy"),
  (307, "TEMPORARY_REDIRECT", "Temporary Redirect"),
  (308, "PERMANENT_REDIRECT", "Permanent Redirect"),
  (400, "BAD_REQUEST", "Bad Request"),
  (401, "UNAUTHORIZED", "Unauthorized"),
  (402, "PAYMENT_REQUIRED", "Payment Required"),
  (403, "FORBIDDEN", "Forbidden"),
  (404, "NOT_FOUND", "Not Found"),
  (405, "METHOD_NOT_ALLOWED", "Method Not Allowed"),
  (406, "NOT_ACCEPTABLE", "Not Acceptable"),
  (407, "PROXY_AUTHENTICATION_REQUIRED", "Proxy Authentication Required"),
  (408, "REQUEST_TIMEOUT", "Request Timeout"),
  (409, "CONFLICT", "Conflict"),
  (410, "GONE", "Gone"),
  (411, "LENGTH_REQUIRED", "Length Required"),
  (412, "PRECONDITION_FAILED", "Precondition Failed"),
  (413, "REQUEST_ENTITY_TOO_LARGE", "Request Entity Too Large"),
  (414, "REQUEST_URI_TOO_LONG", "Request-URI Too Long"),
  (415, "UNSUPPORTED_MEDIA_TYPE", "Unsupported Media Type"),
  (416, "REQUESTED_RANGE_NOT_SATISFIABLE", "Requested Range Not Satisfiable"),
  (417, "EXPECTATION_FAILED", "Expectation Failed"),
  (418, "I_AM_A_TEAPOT", "I'm a teapot"),
  (419, "AUTHENTICATION_TIMEOUT", "Authentication Timeout"),
  (420, "METHOD_FAILURE", "Method Failure (Spring Framework) / Enhance Your Calm (Twitter)"),
  (420, "ENHANCE_YOUR_CALM", "Method Failure (Spring Framework) / Enhance Your Calm (Twitter)"),
  (422, "UNPROCESSABLE_ENTITY", "Unprocessable Entity"),
  (423, "LOCKED", "Locked"),
  (424, "FAILED_DEPENDENCY", "Failed Dependency"),
  (426, "UPGRADE_REQUIRED", "Upgrade Required"),
  (428, "PRECONDITION_REQUIRED", "Precondition Required"),
  (429, "TOO_MANY_REQUESTS", "Too Many Requests"),
  (431, "REQUEST_HEADER_FIELDS_TOO_LARGE", "Request Header Fields Too Large"),
  (440, "LOGIN_TIMEOUT", "Login Timeout (Microsoft)"),
  (444, "NO_RESPONSE", "No Response (Nginx)"),
  (449, "RETRY_WITH", "Retry With (Microsoft)"),
  (450, "BLOCKED_BY_WINDOWS_PARENTAL_CONTROLS", "Blocked by Windows Parental Controls (Microsoft)"),
  (451, "UNAVAILABLE_FOR_LEGAL_REASONS", "Unavailable For Legal Reasons / Redirect (Microsoft)"),
  (451, "REDIRECT", "Unavailable For Legal Reasons / Redirect (Microsoft)"),
  (494, "REQUEST_HEADER_TOO_LARGE", "Request Header Too Large (Nginx)"),
  (495, "CERT_ERROR", "Cert Error (Nginx)"),
  (496, "NO_CERT", "No Cert (Nginx)"),
  (497, "HTTP_TO_HTTPS", "HTTP to HTTPS (Nginx)"),
  (498, "TOKEN_EXPIRED", "Token expired/invalid (Esri)"),
  (498, "TOKEN_INVALID", "Token expired/invalid (Esri)"),
  (499, "CLIENT_CLOSED_REQUEST", "Client Closed Request (Nginx) / Token required (Esri)"),
  (499, "TOKEN_REQUIRED", "Client Closed Request (Nginx) / Token required (Esri)"),
  (500, "INTERNAL_SERVER_ERROR", "Internal Server Error"),
  (501, "NOT_IMPLEMENTED", "Not Implemented"),
  (502, "BAD_GATEWAY", "Bad Gateway"),
  (503, "SERVICE_UNAVAILABLE", "Service Unavailable"),
  (504, "GATEWAY_TIMEOUT", "Gateway Timeout"),
  (505, "HTTP_VERSION_NOT_SUPPORTED", "HTTP Version Not Supported"),
  (506, "VARIANT_ALSO_NEGOTIATES", "Variant Also Negotiates"),
  (507, "INSUFFICIENT_STORAGE", "Insufficient Storage"),
  (508, "LOOP_DETECTED", "Loop Detected"),
  (509, "BANDWIDTH_LIMIT_EXCEEDED", "Bandwidth Limit Exceeded (Apache bw/limited extension)"),
  (510, "NOT_EXTENDED", "Not Extended"),
  (511, "NETWORK_AUTHENTICATION_REQUIRED", "Network Authentication Required"),
  (520, "ORIGIN_ERROR", "Origin Error (CloudFlare)"),
  (521, "WEB_SERVER_IS_DOWN", "Web server is down (CloudFlare)"),
  (522, "CONNECTION_TIMED_OUT", "Connection timed out (CloudFlare)"),
  (523, "PROXY_DECLINED_REQUEST", "Proxy Declined Request (CloudFlare)"),
  (524, "A_TIMEOUT_OCCURRED", "A timeout occurred (CloudFlare)"),
  (598, "NETWORK_READ_TIMEOUT_ERROR", "Network read timeout error (Unknown)"),
  (599, "NETWORK_CONNECT_TIMEOUT_ERROR", "Network connect timeout error (Unknown)")
]

/-- The module state: the two key spaces of the exported object. Lookups are
property reads, so they carry the state through unchanged. -/
structure RegistryState where
  nameTable : List (String × Nat)
  codeTable : List (Nat × String)
deriving DecidableEq

/-- The state of the module right after initialization: the object literal. -/
def initRegistry : RegistryState :=
  { nameTable := symbolicConstants, codeTable := statusDescriptions }

/-- A code lookup as a state-passing operation: the property read returns a
value and leaves the object as it was. -/
def lookupByCodeOp (st : RegistryState) (code : Nat) :
    Option String × RegistryState :=
  ((st.codeTable.find? (fun p => p.1 == code)).map Prod.snd, st)

/-- A name lookup as a state-passing operation: the property read returns a
value and leaves the object as it was. -/
def lookupByNameOp (st : RegistryState) (name : String) :
    Option Nat × RegistryState :=
  ((st.nameTable.find? (fun p => p.1 == name)).map Prod.snd, st)

set_option maxRecDepth 8000

/-- C1: `getStatusText` is polymorphic. For a number it is exactly
`lookupByCode`; for a numeric string it is `lookupByCode` of the coerced
value; for a non-numeric string it resolves the symbolic name and returns
that code's reason text; and any input that resolves neither way yields
`none` (NotFound). -/
theorem getStatusText_polymorphic :
    (∀ c : Nat, getStatusText (StatusInput.num c) = lookupByCode c) ∧
    (∀ s c, numericString? s = some c →
      getStatusText (StatusInput.str s) = lookupByCode c) ∧
    (∀ s, numericString? s = none →
      getStatusText (StatusInput.str s) =
        (lookupBySymbolicName s).bind lookupByCode) ∧
    (∀ s, numericString? s = none → lookupBySymbolicName s = none →
      getStatusText (StatusInput.str s) = none) := by
  refine ⟨fun c => rfl, fun s c h => ?_, fun s h => ?_, fun s h h2 => ?_⟩
  · simp [getStatusText, h]
  · simp [getStatusText, h]
  · simp [getStatusText, h, h2]

/-- Witness for C1 at the concrete inputs `404`, `"404"`, `"NOT_FOUND"` and
`"NOT_A_REAL_STATUS"`. -/
theorem getStatusText_polymorphic_witness :
    getStatusText (StatusInput.num 404) = lookupByCode 404 ∧
    getStatusText (StatusInput.str "404") = lookupByCode 404 ∧
    getStatusText (StatusInput.str "NOT_FOUND") =
      (lookupBySymbolicName "NOT_FOUND").bind lookupByCode ∧
    getStatusText (StatusInput.str "NOT_A_REAL_STATUS") = none :=
  ⟨getStatusText_polymorphic.1 404,
   getStatusText_polymorphic.2.1 "404" 404 (by decide),
   getStatusText_polymorphic.2.2.1 "NOT_FOUND" (by decide),
   getStatusText_polymorphic.2.2.2 "NOT_A_REAL_STATUS" (by decide) (by decide)⟩

/-- C2: every code row of the documentation table looks up to exactly the
documented reason text, both through `lookupByCode` and through
`getStatusText`; in particular 404 gives "Not Found" and 418 gives
"I'm a teapot". -/
theorem lookupByCode_matches_documented :
    (∀ r ∈ readmeTable, lookupByCode r.1 = some r.2.2 ∧
      getStatusText (StatusInput.num r.1) = some r.2.2) ∧
    lookupByCode 404 = some "Not Found" ∧
    lookupByCode 418 = some "I'm a teapot" := by decide

/-- Witness for C2 at the documented row for 404. -/
theorem lookupByCode_matches_documented_witness :
    Prod.fst (lookupByCode 404 = some "Not Found",
      getStatusText (StatusInput.num 404) = some "Not Found") :=
  (lookupByCode_matches_documented.1 (404, "NOT_FOUND", "Not Found")
    (by decide)).1

/-- C3: every constant row of the documentation table looks up to exactly the
documented numeric code; in particular "OK" gives 200 and "NOT_FOUND" gives
404. -/
theorem lookupBySymbolicName_matches_documented :
    (∀ r ∈ readmeTable, lookupBySymbolicName r.2.1 = some r.1) ∧
    lookupBySymbolicName "OK" = some 200 ∧
    lookupBySymbolicName "NOT_FOUND" = some 404 := by decide

/-- Witness for C3 at the documented row for "OK". -/
theorem lookupBySymbolicName_matches_documented_witness :
    lookupBySymbolicName "OK" = some 200 :=
  lookupBySymbolicName_matches_documented.1 (200, "OK", "OK") (by decide)

/-- C4: a lookup of any key absent from the tables returns the absence value
`none` rather than failing; in particular code 999 and name
"NOT_A_REAL_STATUS" both yield `none`. -/
theorem absent_key_lookup_is_none :
    (∀ c : Nat, c ∉ statusDescriptions.map Prod.fst → lookupByCode c = none) ∧
    (∀ n : String, n ∉ symbolicConstants.map Prod.fst →
      lookupBySymbolicName n = none) ∧
    lookupByCode 999 = none ∧
    lookupBySymbolicName "NOT_A_REAL_STATUS" = none := by
  refine ⟨fun c hc => ?_, fun n hn => ?_, by decide, by decide⟩
  · unfold lookupByCode
    rw [List.find?_eq_none.mpr, Option.map_none']
    intro p hp
    simp only [beq_iff_eq]
    exact fun h => hc (List.mem_map.mpr ⟨p, hp, h⟩)
  · unfold lookupBySymbolicName
    rw [List.find?_eq_none.mpr, Option.map_none']
    intro p hp
    simp only [beq_iff_eq]
    exact fun h => hn (List.mem_map.mpr ⟨p, hp, h⟩)

/-- Witness for C4 at the concrete absent keys 1000 and "SOME_MISSING_NAME". -/
theorem absent_key_lookup_is_none_witness :
    lookupByCode 1000 = none ∧
    lookupBySymbolicName "SOME_MISSING_NAME" = none :=
  ⟨absent_key_lookup_is_none.1 1000 (by decide),
   absent_key_lookup_is_none.2.1 "SOME_MISSING_NAME" (by decide)⟩

/-- C5: the dual-alias pairs resolve to the same code: both aliases of 420,
451, 498 and 499 look up to that code. -/
theorem dual_alias_codes :
    lookupBySymbolicName "METHOD_FAILURE" = some 420 ∧
    lookupBySymbolicName "ENHANCE_YOUR_CALM" = some 420 ∧
    lookupBySymbolicName "UNAVAILABLE_FOR_LEGAL_REASONS" = some 451 ∧
    lookupBySymbolicName "REDIRECT" = some 451 ∧
    lookupBySymbolicName "TOKEN_EXPIRED" = some 498 ∧
    lookupBySymbolicName "TOKEN_INVALID" = some 498 ∧
    lookupBySymbolicName "CLIENT_CLOSED_REQUEST" = some 499 ∧
    lookupBySymbolicName "TOKEN_REQUIRED" = some 499 := by decide

/-- C6: for every symbolic-name entry `(n, c)` of the table,
`getStatusText` applied to the name equals `getStatusText` applied to the
code (alias consistency of the unified accessor). -/
theorem getStatusText_alias_consistent :
    ∀ p ∈ symbolicConstants,
      getStatusText (StatusInput.str p.1) =
        getStatusText (StatusInput.num p.2) := by decide

/-- Witness for C6 at the entry ("NOT_FOUND", 404). -/
theorem getStatusText_alias_consistent_witness :
    getStatusText (StatusInput.str "NOT_FOUND") =
      getStatusText (StatusInput.num 404) :=
  getStatusText_alias_consistent ("NOT_FOUND", 404) (by decide)

/-- C7: every key of the code table lies in [100, 599], and the extremes 100
and 599 are both mapped and resolve to their documented phrases. -/
theorem code_range_bounds :
    (∀ p ∈ statusDescriptions, 100 ≤ p.1 ∧ p.1 ≤ 599) ∧
    lookupByCode 100 = some "Continue" ∧
    lookupByCode 599 = some "Network connect timeout error (Unknown)" := by
  decide

/-- Witness for C7 at the entry (100, "Continue"). -/
theorem code_range_bounds_witness :
    100 ≤ (Prod.fst (100, "Continue") : Nat) ∧
      (Prod.fst (100, "Continue") : Nat) ≤ 599 :=
  code_range_bounds.1 (100, "Continue") (by decide)

/-- C8: the symbolic names are pairwise distinct keys, each name entry
resolves to exactly one code, and every reason text in the code table is
non-empty. -/
theorem table_key_invariants :
    (symbolicConstants.map Prod.fst).Nodup ∧
    (∀ p ∈ symbolicConstants, ∀ q ∈ symbolicConstants,
      p.1 = q.1 → p.2 = q.2) ∧
    (∀ p ∈ statusDescriptions, p.2 ≠ "") := by decide

/-- Witness for C8 at the entries ("OK", 200) and (404, "Not Found"). -/
theorem table_key_invariants_witness :
    (Prod.snd ("OK", 200) : Nat) = Prod.snd ("OK", 200) ∧
      Prod.snd (404, "Not Found") ≠ "" :=
  ⟨table_key_invariants.2.1 ("OK", 200) (by decide) ("OK", 200)
    (by decide) rfl,
   table_key_invariants.2.2 (404, "Not Found") (by decide)⟩

/-- C9: lookups are deterministic and side-effect free: a lookup leaves any
registry state unchanged, repeating a lookup from the resulting state gives
the identical value, and from the initial state the operations agree with the
pure lookup functions. -/
theorem lookups_deterministic_and_pure :
    (∀ st : RegistryState, ∀ c : Nat, (lookupByCodeOp st c).2 = st) ∧
    (∀ st : RegistryState, ∀ n : String, (lookupByNameOp st n).2 = st) ∧
    (∀ c : Nat,
      (lookupByCodeOp ((lookupByCodeOp initRegistry c).2) c).1 =
        (lookupByCodeOp initRegistry c).1) ∧
    (∀ n : String,
      (lookupByNameOp ((lookupByNameOp initRegistry n).2) n).1 =
        (lookupByNameOp initRegistry n).1) ∧
    (∀ c : Nat, (lookupByCodeOp initRegistry c).1 = lookupByCode c) ∧
    (∀ n : String, (lookupByNameOp initRegistry n).1 = lookupBySymbolicName n) :=
  ⟨fun _ _ => rfl, fun _ _ => rfl, fun _ => rfl, fun _ => rfl,
   fun _ => rfl, fun _ => rfl⟩

/-- C10: the code table has gaps inside [100, 599]: 421 and 425 are in the
documented interval but are not keys, so their lookups yield `none`, while
the interval extremes are mapped. -/
theorem code_table_has_gaps :
    421 ∉ statusDescriptions.map Prod.fst ∧
    425 ∉ statusDescriptions.map Prod.fst ∧
    lookupByCode 421 = none ∧
    lookupByCode 425 = none ∧
    (100 ≤ 421 ∧ 421 ≤ 599) ∧
    (100 ≤ 425 ∧ 425 ≤ 599) ∧
    lookupByCode 100 ≠ none ∧
    lookupByCode 599 ≠ none := by decide
